import Mathlib

/-!
Verification of the icon-resolution script `scripts/generate-icon.py`.

This file gives a shallow embedding, in Lean, of the core of the script:
theme-index parsing (`Theme.__init__`, `ThemeSubdirectory.__init__`), the
theme cache (`THEME_CACHE`, `Theme.check_cache_before_creation`,
`Theme.from_theme_name`, `Theme.get_theme_directory`), the size matcher
(`directory_matches_size`, `directory_size_distance`) and the resolver
(`lookup_icon`, `find_icon_helper`, `find_icon`).

Modelling conventions:
* The file system is an explicit structure `FS` (existing directories,
  readable index files given as lists of lines, and existing icon files).
* Python `Path` values are plain strings; `a / b` becomes `a ++ "/" ++ b`.
  The one place where a path may be Python `None` (the missing return of
  `Theme.get_theme_directory`) is `Option String`.
* Python exceptions are modelled with `Except PyErr`:  `TypeError`
  (operating on `None`), `FileNotFoundError` (opening a missing index
  file), `ValueError` (`int()` on a non-integer) and `RecursionError`.
* Unbounded recursion during theme construction (the script constructs the
  parent `Theme`s eagerly inside `Theme.__init__`) is modelled with a fuel
  parameter; exhausting the fuel yields `PyErr.recursionError`.  A run of
  the Python script corresponds to the limit of large fuel: if some fuel
  returns a non-`recursionError` result the script returns exactly that,
  and if every fuel returns `recursionError` the script recurses forever.
* Construction functions additionally return a `Nat` counting how many
  times an `index.theme` file was opened and scanned ("parses"); this is
  the parse-count instrumentation needed to settle the memoization claim.
  The count is observational only: it never influences any result.
-/

/-- Python exceptions that the script can raise, plus the
`RecursionError` produced by exhausting the recursion (fuel) limit. -/
inductive PyErr where
  | typeError
  | fileNotFound
  | valueError
  | recursionError
deriving DecidableEq, Repr

/-- The `SubdirType` enum of the script. -/
inductive SubdirType where
  | Fixed
  | Scalable
deriving DecidableEq, Repr

/-- Explicit model of the parts of the file system the script touches:
the home directory path, the set of existing directories, the readable
index files (path to list of lines) and the set of paths for which
`os.path.exists` is true (candidate icon files). -/
structure FS where
  home : String
  dirs : List String
  fileLines : List (String × List String)
  files : List String
deriving DecidableEq, Repr

/-- `Path.is_dir()` on this model. -/
def FS.isDir (fs : FS) (p : String) : Bool :=
  fs.dirs.contains p

/-- `open(p, "r")` on this model: the lines of the file, or `none` when
opening raises `FileNotFoundError`. -/
def FS.readFile (fs : FS) (p : String) : Option (List String) :=
  fs.fileLines.lookup p

/-- `os.path.exists(p)` on this model. -/
def FS.pathExists (fs : FS) (p : String) : Bool :=
  fs.files.contains p

/-- `sys.maxsize` on a 64-bit CPython build. -/
def sysMaxsize : Int := 9223372036854775807

/-- ASCII whitespace for Python `str.strip()` (the index files never use
non-ASCII whitespace). -/
def isPySpace (c : Char) : Bool :=
  c == ' ' || c == '\t' || c == '\n' || c == '\r' || c == '\x0b' || c == '\x0c'

/-- Python `line.strip()`: drop leading and trailing whitespace.  Written
over the character list so that it evaluates by kernel reduction. -/
def pyStrip (s : String) : String :=
  String.mk (((s.data.dropWhile isPySpace).reverse.dropWhile isPySpace).reverse)

/-- Worker for `pySplit`: split a character list at every occurrence of
the separator (accumulating the current piece in reverse). -/
def pySplitAux (sep : Char) : List Char → List Char → List String
  | [], cur => [String.mk cur.reverse]
  | c :: rest, cur =>
    if c == sep then String.mk cur.reverse :: pySplitAux sep rest []
    else pySplitAux sep rest (c :: cur)

/-- Python `s.split(sep)` for the one-character separators the script
uses ("=" and ","): e.g. `"a=b"` gives `["a", "b"]` and `""` gives
`[""]`. -/
def pySplit (s : String) (sep : Char) : List String :=
  pySplitAux sep s.data []

/-- Python `s.startswith(p)` for the one-character prefix `"["` the
script uses. -/
def pyStartsWith (s : String) (c : Char) : Bool :=
  match s.data with
  | [] => false
  | a :: _ => a == c

/-- Digit run for `pyInt` (empty runs are invalid). -/
def pyNatAux : List Char → Nat → Option Nat
  | [], acc => some acc
  | c :: rest, acc =>
    if c.isDigit then pyNatAux rest (acc * 10 + (c.toNat - 48))
    else none

/-- Python `int(v)` on the values the script feeds it: an optional sign
followed by at least one decimal digit, else `ValueError`.  (CPython also
tolerates surrounding whitespace and underscores; the index files in play
never use them.) -/
def pyInt (v : String) : Except PyErr Int :=
  match v.data with
  | [] => .error .valueError
  | '-' :: rest =>
    match rest with
    | [] => .error .valueError
    | _ =>
      match pyNatAux rest 0 with
      | some n => .ok (-(n : Int))
      | none => .error .valueError
  | _ =>
    match pyNatAux v.data 0 with
    | some n => .ok (n : Int)
    | none => .error .valueError

/-- A parsed `ThemeSubdirectory`.  The Python object keeps a back
reference to its whole `Theme`; only `theme.path` is ever read through it
(in `full_path`), so the embedding stores that path.  `type`, `size`,
`min_size` and `max_size` keep their initial Python value `None` when the
corresponding key is absent from the subdirectory's section; `scale` is
an `Int` because `__init__` ends by defaulting it to `1`. -/
structure ThemeSubdirectory where
  relpath : String
  theme_path : String
  type : Option SubdirType
  size : Option Int
  min_size : Option Int
  max_size : Option Int
  scale : Int
deriving DecidableEq, Repr

/-- `ThemeSubdirectory.full_path`: `self.theme.path / self.relpath`. -/
def ThemeSubdirectory.full_path (sub : ThemeSubdirectory) : String :=
  sub.theme_path ++ "/" ++ sub.relpath

/-- The mutable attribute state built up by the scanning loop of
`ThemeSubdirectory.__init__` (all fields start as `None`). -/
structure SubdirFields where
  type : Option SubdirType
  size : Option Int
  min_size : Option Int
  max_size : Option Int
  scale : Option Int
deriving DecidableEq, Repr

/-- The line-scanning loop of `ThemeSubdirectory.__init__`: walk the index
file's lines carrying the `read` flag; once the `[<relpath>]` header was
seen, record `Type`, `Size`, `MinSize`, `MaxSize` and `Scale` keys until
the next section header. -/
def subdirScan (relpath : String) : List String → Bool → SubdirFields →
    Except PyErr SubdirFields
  | [], _, st => .ok st
  | l :: rest, read, st =>
    let line := pyStrip l
    if read then
      if pyStartsWith line '[' then .ok st
      else
        match pySplit line '=' with
        | [k, v] =>
          if k == "Type" then
            let st2 :=
              if v == "Fixed" then { st with type := some SubdirType.Fixed }
              else if v == "Scalable" then { st with type := some SubdirType.Scalable }
              else st
            subdirScan relpath rest true st2
          else if k == "Size" then
            match pyInt v with
            | .error e => .error e
            | .ok i => subdirScan relpath rest true { st with size := some i }
          else if k == "MinSize" then
            match pyInt v with
            | .error e => .error e
            | .ok i => subdirScan relpath rest true { st with min_size := some i }
          else if k == "MaxSize" then
            match pyInt v with
            | .error e => .error e
            | .ok i => subdirScan relpath rest true { st with max_size := some i }
          else if k == "Scale" then
            match pyInt v with
            | .error e => .error e
            | .ok i => subdirScan relpath rest true { st with scale := some i }
          else subdirScan relpath rest true st
        | _ => subdirScan relpath rest true st
    else if line == "[" ++ relpath ++ "]" then subdirScan relpath rest true st
    else subdirScan relpath rest false st

/-- `ThemeSubdirectory.__init__`: re-open the owning theme's index file,
scan it for the `[<relpath>]` section, and default `scale` to `1` when no
`Scale` key was seen. -/
def ThemeSubdirectory.init (fs : FS) (relpath theme_path index_file : String) :
    Except PyErr ThemeSubdirectory :=
  match fs.readFile index_file with
  | none => .error .fileNotFound
  | some ls =>
    match subdirScan relpath ls false ⟨none, none, none, none, none⟩ with
    | .error e => .error e
    | .ok st =>
      .ok { relpath := relpath, theme_path := theme_path, type := st.type,
            size := st.size, min_size := st.min_size, max_size := st.max_size,
            scale := match st.scale with | some sc => sc | none => 1 }

/-- The list comprehension building `self.directories` in
`Theme.__init__`: one `ThemeSubdirectory` per declared relative path, in
order; the returned `Nat` counts the index-file opens (one per
subdirectory). -/
def constructSubdirs (fs : FS) (theme_path index_file : String) :
    List String → Except PyErr (List ThemeSubdirectory × Nat)
  | [] => .ok ([], 0)
  | rp :: rest =>
    match ThemeSubdirectory.init fs rp theme_path index_file with
    | .error e => .error e
    | .ok sub =>
      match constructSubdirs fs theme_path index_file rest with
      | .error e => .error e
      | .ok (subs, c) => .ok (sub :: subs, 1 + c)

/-- A constructed `Theme`.  `parents` and `directories` are `none` when
`Theme.__init__` never assigned them (no `Inherits` / no `Directories`
key before the first foreign section header). -/
inductive Theme where
  | mk (path index_file : String)
       (parents : Option (List Theme))
       (directories : Option (List ThemeSubdirectory))
deriving Repr

/-- `self.path` of a `Theme`. -/
def Theme.path : Theme → String
  | .mk p _ _ _ => p

/-- `self.index_file` of a `Theme`. -/
def Theme.index_file : Theme → String
  | .mk _ i _ _ => i

/-- `self.parents` of a `Theme`. -/
def Theme.parents : Theme → Option (List Theme)
  | .mk _ _ ps _ => ps

/-- `self.directories` of a `Theme`. -/
def Theme.directories : Theme → Option (List ThemeSubdirectory)
  | .mk _ _ _ ds => ds

/-- `Theme.has_parents`: `self.parents is not None and len(self.parents)`
(the `int` result of `len` is used for its truthiness). -/
def Theme.has_parents (t : Theme) : Bool :=
  match t.parents with
  | none => false
  | some l => !(l.length == 0)

/-- The theme cache: the module-level dict `THEME_CACHE`, keyed by
`str(theme_directory)`. -/
abbrev Cache := List (String × Theme)

/-- `str(p)` for the `Path | None` result of `get_theme_directory`
(CPython renders `None` as the string "None"). -/
def strOfPyPath : Option String → String
  | some p => p
  | none => "None"

/-- The loop of `Theme.get_theme_directory`: first root whose
`<root>/<theme_name>` directory exists. -/
def firstThemeDir (fs : FS) : List String → Option String
  | [] => none
  | d :: rest => if fs.isDir d then some d else firstThemeDir fs rest

/-- `Theme.get_theme_directory`: probe the user-local icon directory and
then `/usr/share/icons`; when neither contains the theme the Python
function falls off its loop and implicitly returns `None`. -/
def Theme.get_theme_directory (fs : FS) (theme_name : String) : Option String :=
  firstThemeDir fs
    [fs.home ++ "/.local/share/icons/" ++ theme_name,
     "/usr/share/icons/" ++ theme_name]

/-- The list comprehension building `self.parents` in `Theme.__init__`:
one constructed parent `Theme` per declared name, in order.  `fromName`
is the (fuel-limited) `Theme.from_theme_name`; it is passed as a
parameter so that the whole construction can recurse structurally on the
fuel (see `Theme.init` and `Theme.from_theme_name_unfold`). -/
def constructParentsAux (fromName : String → Except PyErr (Theme × Nat)) :
    List String → Except PyErr (List Theme × Nat)
  | [] => .ok ([], 0)
  | name :: rest =>
    match fromName name with
    | .error e => .error e
    | .ok (t, c1) =>
      match constructParentsAux fromName rest with
      | .error e => .error e
      | .ok (ts, c2) => .ok (t :: ts, c1 + c2)

/-- The line loop of `Theme.__init__`: before the first section header
other than `[Icon Theme]`, split `key=value` lines; `Inherits` builds the
parent themes eagerly (in declared order), `Directories` builds the
subdirectory records (in declared order).  The `Nat` accumulates the
index-file opens performed by the parent and subdirectory
constructions. -/
def themeInitLoop (fromName : String → Except PyErr (Theme × Nat)) (fs : FS)
    (tp idx : String) : List String → Option (List Theme) →
    Option (List ThemeSubdirectory) →
    Except PyErr (Option (List Theme) × Option (List ThemeSubdirectory) × Nat)
  | [], ps, ds => .ok (ps, ds, 0)
  | l :: rest, ps, ds =>
    let line := pyStrip l
    if pyStartsWith line '[' && line != "[Icon Theme]" then .ok (ps, ds, 0)
    else
      match pySplit line '=' with
      | [k, v] =>
        let vs := pySplit v ','
        if k == "Inherits" then
          match constructParentsAux fromName vs with
          | .error e => .error e
          | .ok (newps, c1) =>
            match themeInitLoop fromName fs tp idx rest (some newps) ds with
            | .error e => .error e
            | .ok (a, b, c2) => .ok (a, b, c1 + c2)
        else if k == "Directories" then
          match constructSubdirs fs tp idx vs with
          | .error e => .error e
          | .ok (newds, c1) =>
            match themeInitLoop fromName fs tp idx rest ps (some newds) with
            | .error e => .error e
            | .ok (a, b, c2) => .ok (a, b, c1 + c2)
        else themeInitLoop fromName fs tp idx rest ps ds
      | _ => themeInitLoop fromName fs tp idx rest ps ds

/-- `Theme.__init__`: set `path` and `index_file`, open the index file
(TypeError when the directory is Python `None`, FileNotFoundError when
the file is missing) and run the header-scanning loop.  The `Nat` in the
result counts index-file opens; the own open contributes `1`.  Fuel
models the recursion depth of the eager parent construction: the lambda
passed to `themeInitLoop` is `Theme.from_theme_name` with its cache check
inlined, recursing at one fuel less (`Theme.from_theme_name_unfold`
states that equality). -/
def Theme.init (fs : FS) (cache : Cache) : Nat → Option String →
    Except PyErr (Theme × Nat)
  | fuel, dir =>
    match dir with
    | none => .error .typeError
    | some d =>
      match fuel with
      | 0 => .error .recursionError
      | Nat.succ n =>
        match fs.readFile (d ++ "/index.theme") with
        | none => .error .fileNotFound
        | some ls =>
          match themeInitLoop
              (fun name =>
                match cache.lookup (strOfPyPath (Theme.get_theme_directory fs name)) with
                | some t => .ok (t, 0)
                | none => Theme.init fs cache n (Theme.get_theme_directory fs name))
              fs d (d ++ "/index.theme") ls none none with
          | .error e => .error e
          | .ok (ps, ds, c) => .ok (Theme.mk d (d ++ "/index.theme") ps ds, 1 + c)

/-- `Theme.check_cache_before_creation`: return the cached `Theme` for
`str(theme_directory)` when present (no parse), otherwise construct one.
Nothing in the script ever inserts into `THEME_CACHE`. -/
def Theme.check_cache_before_creation (fs : FS) (cache : Cache)
    (dir : Option String) (fuel : Nat) : Except PyErr (Theme × Nat) :=
  match cache.lookup (strOfPyPath dir) with
  | some t => .ok (t, 0)
  | none => Theme.init fs cache fuel dir

/-- `Theme.from_theme_name`. -/
def Theme.from_theme_name (fs : FS) (cache : Cache) (name : String) (fuel : Nat) :
    Except PyErr (Theme × Nat) :=
  Theme.check_cache_before_creation fs cache (Theme.get_theme_directory fs name) fuel


/-- The module-level `THEME_CACHE = {}`.  The script never assigns into
it, so it is the empty mapping for the whole process lifetime. -/
def THEME_CACHE : Cache := []

/-- `directory_matches_size`.  The Python function returns `True`/`False`
for `Fixed` and `Scalable` subdirectories; for any other `type` it falls
off the end and returns `None`, which every call site uses in boolean
context, so that case is embedded as `false`.  A `Scalable` subdirectory
whose `min_size`/`max_size` is still `None` raises `TypeError` on the
chained comparison (`max_size` is only reached when `min_size <=
icon_size` holds, matching Python's short-circuit). -/
def directory_matches_size (subdir : ThemeSubdirectory)
    (icon_size icon_scale : Int) : Except PyErr Bool :=
  if subdir.scale != icon_scale then .ok false
  else
    match subdir.type with
    | some SubdirType.Fixed =>
      -- `None == icon_size` is `False` in Python, hence the `none` case.
      .ok (match subdir.size with
           | some s => s == icon_size
           | none => false)
    | some SubdirType.Scalable =>
      match subdir.min_size with
      | none => .error .typeError
      | some mn =>
        if mn ≤ icon_size then
          match subdir.max_size with
          | none => .error .typeError
          | some mx => .ok (icon_size ≤ mx)
        else .ok false
    | none => .ok false

/-- `directory_size_distance`: `Fixed` gives `abs(size*scale - dim)`,
`Scalable` gives the gap to the nearer bound of
`[min_size*scale, max_size*scale]` (0 inside), anything else gives
`sys.maxsize`. -/
def directory_size_distance (subdir : ThemeSubdirectory)
    (icon_size icon_scale : Int) : Except PyErr Int :=
  let icon_dimension := icon_size * icon_scale
  match subdir.type with
  | some SubdirType.Fixed =>
    match subdir.size with
    | none => .error .typeError
    | some s => .ok (abs (s * subdir.scale - icon_dimension))
  | some SubdirType.Scalable =>
    match subdir.min_size with
    | none => .error .typeError
    | some mn =>
      if icon_dimension < mn * subdir.scale then
        .ok (mn * subdir.scale - icon_dimension)
      else
        match subdir.max_size with
        | none => .error .typeError
        | some mx =>
          if icon_dimension > mx * subdir.scale then
            .ok (icon_dimension - mx * subdir.scale)
          else .ok 0
  | none => .ok sysMaxsize

/-- The fixed extension priority list of `lookup_icon`. -/
def extList : List String := ["png", "svg", "xpm"]

/-- The candidate file name `f"{subdir.full_path()}/{iconname}.{extension}"`. -/
def candFile (sub : ThemeSubdirectory) (iconname ext : String) : String :=
  sub.full_path ++ "/" ++ iconname ++ "." ++ ext

/-- Inner loop of the exact-match pass of `lookup_icon`: the extensions
of one subdirectory. -/
def lookupExactExts (fs : FS) (iconname : String) (size scale : Int)
    (sub : ThemeSubdirectory) : List String → Except PyErr (Option String)
  | [] => .ok none
  | ext :: rest =>
    match directory_matches_size sub size scale with
    | .error e => .error e
    | .ok true =>
      let filename := candFile sub iconname ext
      if fs.pathExists filename then .ok (some filename)
      else lookupExactExts fs iconname size scale sub rest
    | .ok false => lookupExactExts fs iconname size scale sub rest

/-- Outer loop of the exact-match pass of `lookup_icon`: first
subdirectory (in declaration order), then extension, that matches exactly
and whose candidate file exists. -/
def lookupExact (fs : FS) (iconname : String) (size scale : Int) :
    List ThemeSubdirectory → Except PyErr (Option String)
  | [] => .ok none
  | sub :: rest =>
    match lookupExactExts fs iconname size scale sub extList with
    | .error e => .error e
    | .ok (some f) => .ok (some f)
    | .ok none => lookupExact fs iconname size scale rest

/-- Inner loop of the closest-match pass of `lookup_icon`, carrying
`minimal_size` and `closest_filename`.  The distance is only computed
when the candidate file exists (Python's `and` short-circuits), and the
running minimum is only replaced on a strict improvement. -/
def lookupClosestExts (fs : FS) (iconname : String) (size scale : Int)
    (sub : ThemeSubdirectory) : List String → Int → String →
    Except PyErr (Int × String)
  | [], m, best => .ok (m, best)
  | ext :: rest, m, best =>
    let filename := candFile sub iconname ext
    if fs.pathExists filename then
      match directory_size_distance sub size scale with
      | .error e => .error e
      | .ok d =>
        if d < m then lookupClosestExts fs iconname size scale sub rest d filename
        else lookupClosestExts fs iconname size scale sub rest m best
    else lookupClosestExts fs iconname size scale sub rest m best

/-- Outer loop of the closest-match pass of `lookup_icon`. -/
def lookupClosest (fs : FS) (iconname : String) (size scale : Int) :
    List ThemeSubdirectory → Int → String → Except PyErr (Int × String)
  | [], m, best => .ok (m, best)
  | sub :: rest, m, best =>
    match lookupClosestExts fs iconname size scale sub extList m best with
    | .error e => .error e
    | .ok (m2, best2) => lookupClosest fs iconname size scale rest m2 best2

/-- `lookup_icon`: exact pass, then closest pass starting from
`minimal_size = sys.maxsize` and `closest_filename = ""`.  Iterating
`theme.directories` raises `TypeError` when that attribute is still
`None`.  The final Python guard `if closest_filename is not None` is
always true because `closest_filename` is a `str` (initially `""`), so
the function returns the accumulated `closest_filename` (possibly the
empty string) and its trailing `return None` is unreachable. -/
def lookup_icon (fs : FS) (iconname : String) (size scale : Int)
    (theme : Theme) : Except PyErr (Option String) :=
  match theme.directories with
  | none => .error .typeError
  | some subs =>
    match lookupExact fs iconname size scale subs with
    | .error e => .error e
    | .ok (some f) => .ok (some f)
    | .ok none =>
      match lookupClosest fs iconname size scale subs sysMaxsize "" with
      | .error e => .error e
      | .ok (_, closest) => .ok (some closest)

mutual

/-- `find_icon_helper`: own-theme lookup first, then depth-first over the
declared parents when `theme.has_parents()`. -/
def find_icon_helper (fs : FS) (icon : String) (size scale : Int) :
    Theme → Except PyErr (Option String)
  | Theme.mk p idx ps ds =>
    match lookup_icon fs icon size scale (Theme.mk p idx ps ds) with
    | .error e => .error e
    | .ok (some f) => .ok (some f)
    | .ok none =>
      if (Theme.mk p idx ps ds).has_parents then
        match ps with
        | some l => findInParents fs icon size scale l
        | none => .ok none
      else .ok none

/-- The `for parent in self.parents` loop of `find_icon_helper`: first
non-`None` result wins. -/
def findInParents (fs : FS) (icon : String) (size scale : Int) :
    List Theme → Except PyErr (Option String)
  | [] => .ok none
  | t :: rest =>
    match find_icon_helper fs icon size scale t with
    | .error e => .error e
    | .ok (some f) => .ok (some f)
    | .ok none => findInParents fs icon size scale rest

end

/-- `find_icon`: resolve and search the named theme; when that produced
Python `None`, resolve and search `"hicolor"`; when that also produced
`None`, fall off the end (return `None`).  The `Nat` is the total number
of index-file parses performed by the call. -/
def find_icon (fs : FS) (cache : Cache) (theme_name icon : String)
    (size scale : Int) (fuel : Nat) : Except PyErr (Option String × Nat) :=
  match Theme.check_cache_before_creation fs cache
      (Theme.get_theme_directory fs theme_name) fuel with
  | .error e => .error e
  | .ok (t, c1) =>
    match find_icon_helper fs icon size scale t with
    | .error e => .error e
    | .ok (some f) => .ok (some f, c1)
    | .ok none =>
      match Theme.check_cache_before_creation fs cache
          (Theme.get_theme_directory fs "hicolor") fuel with
      | .error e => .error e
      | .ok (t2, c2) =>
        match find_icon_helper fs icon size scale t2 with
        | .error e => .error e
        | .ok (some f) => .ok (some f, c1 + c2)
        | .ok none => .ok (none, c1 + c2)

/-!
Concrete theme installations used to settle the claims.  Each `FS` below
is one explicit file-system scenario; all paths live under
`/usr/share/icons` (the user-local root is left empty).
-/

/-- Scenario for claim C1: theme `A` declares `Inherits=B` and one exact
`16x16` subdirectory but holds no icon file; theme `B` has icon `X` in
its exact-match `16x16` subdirectory. -/
def fsC1 : FS :=
  { home := "/h"
    dirs := ["/usr/share/icons/A", "/usr/share/icons/B"]
    fileLines :=
      [("/usr/share/icons/A/index.theme",
        ["[Icon Theme]", "Inherits=B", "Directories=16x16", "",
         "[16x16]", "Type=Fixed", "Size=16"]),
       ("/usr/share/icons/B/index.theme",
        ["[Icon Theme]", "Directories=16x16", "",
         "[16x16]", "Type=Fixed", "Size=16"])]
    files := ["/usr/share/icons/B/16x16/X.png"] }

/-- Scenario for claim C2: a single theme `E` with one subdirectory and
an existing icon file; its index file is the only readable file. -/
def fsC2 : FS :=
  { home := "/h"
    dirs := ["/usr/share/icons/E"]
    fileLines :=
      [("/usr/share/icons/E/index.theme",
        ["[Icon Theme]", "Directories=16x16", "", "[16x16]", "Type=Fixed", "Size=16"])]
    files := ["/usr/share/icons/E/16x16/X.png"] }

/-- Scenario for claim C3: themes `A` and `B` whose `Inherits` lines form
a two-cycle. -/
def fsCyc : FS :=
  { home := "/h"
    dirs := ["/usr/share/icons/A", "/usr/share/icons/B"]
    fileLines :=
      [("/usr/share/icons/A/index.theme", ["[Icon Theme]", "Inherits=B"]),
       ("/usr/share/icons/B/index.theme", ["[Icon Theme]", "Inherits=A"])]
    files := [] }

/-- Scenario for claim C4: no theme directory exists at all. -/
def fsC4 : FS :=
  { home := "/h", dirs := [], fileLines := [], files := [] }

/-- Scenario for claims C5 and C6: theme `C` exists with an exact-match
subdirectory but no icon file; `hicolor` exists and has the icon. -/
def fsC5 : FS :=
  { home := "/h"
    dirs := ["/usr/share/icons/C", "/usr/share/icons/hicolor"]
    fileLines :=
      [("/usr/share/icons/C/index.theme",
        ["[Icon Theme]", "Directories=16x16", "", "[16x16]", "Type=Fixed", "Size=16"]),
       ("/usr/share/icons/hicolor/index.theme",
        ["[Icon Theme]", "Directories=16x16", "", "[16x16]", "Type=Fixed", "Size=16"])]
    files := ["/usr/share/icons/hicolor/16x16/X.png"] }

/-- Scenario for claim C9: theme `T` declares `Inherits=a,b` and
`Directories=16x16,32x32` with fully populated subdirectory sections
(`16x16` has no `Scale` key); themes `a` and `b` exist with minimal index
files. -/
def fsC9 : FS :=
  { home := "/h"
    dirs := ["/usr/share/icons/T", "/usr/share/icons/a", "/usr/share/icons/b"]
    fileLines :=
      [("/usr/share/icons/T/index.theme",
        ["[Icon Theme]", "Inherits=a,b", "Directories=16x16,32x32", "",
         "[16x16]", "Type=Fixed", "Size=16", "",
         "[32x32]", "Type=Scalable", "Size=32", "MinSize=16", "MaxSize=64", "Scale=2"]),
       ("/usr/share/icons/a/index.theme", ["[Icon Theme]"]),
       ("/usr/share/icons/b/index.theme", ["[Icon Theme]"])]
    files := [] }

/-- Scenario for claim C10: theme `N` whose index file has no
`Directories` key. -/
def fsC10 : FS :=
  { home := "/h"
    dirs := ["/usr/share/icons/N"]
    fileLines := [("/usr/share/icons/N/index.theme", ["[Icon Theme]"])]
    files := [] }

/-!
Definitions used to settle claim C8: the pure distance value on
well-formed subdirectories, the flattened candidate list of
`lookup_icon`'s closest-match pass, and its selection fold.
-/

/-- Well-formedness of a subdirectory record: the size fields its type
reads are populated (`Fixed` needs `size`; `Scalable` needs `min_size`
and `max_size`).  Subdirectories of unknown type are vacuously
well-formed. -/
def WfSub (subdir : ThemeSubdirectory) : Prop :=
  (subdir.type = some SubdirType.Fixed → subdir.size ≠ none) ∧
  (subdir.type = some SubdirType.Scalable →
    subdir.min_size ≠ none ∧ subdir.max_size ≠ none)

instance (subdir : ThemeSubdirectory) : Decidable (WfSub subdir) := by
  unfold WfSub
  infer_instance

/-- The value `directory_size_distance` computes on well-formed
subdirectories, as a total function (the `0` default branches are never
reached under `WfSub`; see `directory_size_distance_ok`). -/
def distVal (subdir : ThemeSubdirectory) (icon_size icon_scale : Int) : Int :=
  let icon_dimension := icon_size * icon_scale
  match subdir.type with
  | some SubdirType.Fixed =>
    match subdir.size with
    | some s => abs (s * subdir.scale - icon_dimension)
    | none => 0
  | some SubdirType.Scalable =>
    match subdir.min_size, subdir.max_size with
    | some mn, some mx =>
      if icon_dimension < mn * subdir.scale then mn * subdir.scale - icon_dimension
      else if icon_dimension > mx * subdir.scale then icon_dimension - mx * subdir.scale
      else 0
    | _, _ => 0
  | none => sysMaxsize

/-- The (subdirectory, extension) candidate pairs of `lookup_icon`'s
passes, in iteration order: subdirectories in declaration order, each
with the extensions `png`, `svg`, `xpm`. -/
def candList (subs : List ThemeSubdirectory) : List (ThemeSubdirectory × String) :=
  (subs.map (fun sub => extList.map (fun ext => (sub, ext)))).flatten

/-- `lookup_icon`'s closest-match pass as a single fold over the
flattened candidate list (equal to the nested loops; see
`lookupClosest_eq_closestFold`). -/
def closestFold (fs : FS) (iconname : String) (size scale : Int) :
    List (ThemeSubdirectory × String) → Int → String → Except PyErr (Int × String)
  | [], m, best => .ok (m, best)
  | (sub, ext) :: rest, m, best =>
    let filename := candFile sub iconname ext
    if fs.pathExists filename then
      match directory_size_distance sub size scale with
      | .error e => .error e
      | .ok d =>
        if d < m then closestFold fs iconname size scale rest d filename
        else closestFold fs iconname size scale rest m best
    else closestFold fs iconname size scale rest m best

/-- The candidates of `cs` whose file exists. -/
def candExisting (fs : FS) (iconname : String)
    (cs : List (ThemeSubdirectory × String)) : List (ThemeSubdirectory × String) :=
  cs.filter (fun c => fs.pathExists (candFile c.1 iconname c.2))

/-- Running minimum, seeded with `m` (the shape of the closest-match
pass's `minimal_size` accumulator). -/
def minFrom (m : Int) : List Int → Int
  | [] => m
  | d :: ds => minFrom (min m d) ds

/-- The path selected by the closest-match pass: the first existing
candidate achieving the minimal distance, provided that minimum
strictly improves on the initial `sys.maxsize`; otherwise the initial
`closest_filename`, the empty string. -/
def closestSpec (fs : FS) (iconname : String) (size scale : Int)
    (subs : List ThemeSubdirectory) : String :=
  let ex := candExisting fs iconname (candList subs)
  let m := minFrom sysMaxsize (ex.map (fun c => distVal c.1 size scale))
  if m < sysMaxsize then
    match ex.find? (fun c => distVal c.1 size scale == m) with
    | some c => candFile c.1 iconname c.2
    | none => ""
  else ""

/-- Scenario for claim C8's counterexample: the only existing candidate
file lives in a subdirectory whose `Type` is neither `Fixed` nor
`Scalable` (its `type` attribute stays `None`). -/
def subU : ThemeSubdirectory :=
  ⟨"weird", "/usr/share/icons/U", none, none, none, none, 1⟩

/-- File system for claim C8's counterexample. -/
def fs8 : FS :=
  { home := "/h", dirs := ["/usr/share/icons/U"], fileLines := [],
    files := ["/usr/share/icons/U/weird/X.png"] }

/-- The theme owning `subU`. -/
def themeU : Theme :=
  Theme.mk "/usr/share/icons/U" "/usr/share/icons/U/index.theme" none (some [subU])

/-- Scenario for claim C8's positive example: only two `Fixed`
subdirectories, sized 48 and 96 at scale 1, both holding icon `X`. -/
def fsF : FS :=
  { home := "/h", dirs := ["/usr/share/icons/F"], fileLines := [],
    files := ["/usr/share/icons/F/48/X.png", "/usr/share/icons/F/96/X.png"] }

/-- The 48px `Fixed` subdirectory of `fsF`. -/
def sub48 : ThemeSubdirectory :=
  ⟨"48", "/usr/share/icons/F", some SubdirType.Fixed, some 48, none, none, 1⟩

/-- The 96px `Fixed` subdirectory of `fsF`. -/
def sub96 : ThemeSubdirectory :=
  ⟨"96", "/usr/share/icons/F", some SubdirType.Fixed, some 96, none, none, 1⟩

/-- The theme owning `sub48` and `sub96`. -/
def themeF : Theme :=
  Theme.mk "/usr/share/icons/F" "/usr/share/icons/F/index.theme" none
    (some [sub48, sub96])

/-- The lambda inlined in `Theme.init` for the eager parent construction
is exactly `Theme.from_theme_name` at the decremented fuel. -/
theorem Theme.from_theme_name_unfold (fs : FS) (cache : Cache) (name : String)
    (n : Nat) :
    (match cache.lookup (strOfPyPath (Theme.get_theme_directory fs name)) with
     | some t => .ok (t, 0)
     | none => Theme.init fs cache n (Theme.get_theme_directory fs name)) =
    Theme.from_theme_name fs cache name n := rfl

/-- Claim C1 is falsified by the code: with theme `A` (no file for icon
`X` anywhere in its subdirectories) inheriting theme `B` (which holds
`X.png` in an exact-match subdirectory), `find_icon` returns the empty
string that `lookup_icon`'s closest-match pass leaves in
`closest_filename`, not `B`'s file path: `lookup_icon` never returns
Python `None` (its final `is not None` guard always passes), so
`find_icon_helper` never proceeds to the parents.  The second conjunct
shows the search of `B` alone would have produced `B`'s path. -/
theorem claim_C1_empty_string_instead_of_parent :
    find_icon fsC1 THEME_CACHE "A" "X" 16 1 10 = .ok (some "", 4) ∧
    (Theme.from_theme_name fsC1 THEME_CACHE "B" 10).map
        (fun x => find_icon_helper fsC1 "X" 16 1 x.1) =
      .ok (.ok (some "/usr/share/icons/B/16x16/X.png")) :=
  ⟨rfl, rfl⟩

/-- Claim C2 is falsified by the code: `THEME_CACHE` is never written, so
nothing is ever memoized, and `ThemeSubdirectory.__init__` re-opens the
index file besides `Theme.__init__`'s own read.  A single `find_icon`
call on a theme with one subdirectory already parses the only readable
index file twice (the count `2` below), contradicting "parsed at most
once per process lifetime"; a repeated identical call parses it twice
again (same evaluation), rather than hitting a cache. -/
theorem claim_C2_reparses_index :
    find_icon fsC2 THEME_CACHE "E" "X" 16 1 10 =
      .ok (some "/usr/share/icons/E/16x16/X.png", 2) ∧
    fsC2.fileLines.map Prod.fst = ["/usr/share/icons/E/index.theme"] :=
  ⟨rfl, rfl⟩

/-- Claim C4 is falsified by the code: when no search root contains the
requested theme, `Theme.get_theme_directory` implicitly returns `None`,
and `Theme.__init__` then raises `TypeError` on `None / "index.theme"`;
resolution aborts with an error instead of treating the theme as absent
and continuing. -/
theorem claim_C4_absent_theme_raises :
    Theme.get_theme_directory fsC4 "Missing" = none ∧
    find_icon fsC4 THEME_CACHE "Missing" "X" 16 1 10 = .error .typeError :=
  ⟨rfl, rfl⟩

/-- Claim C5 is falsified by the code: searching theme `C` yields no
file, yet `find_icon` returns the empty string from `lookup_icon`
(which never returns `None`), so the `hicolor` fallback step is
unreachable even though `hicolor` holds the icon (second conjunct: the
search of `hicolor` alone would find it). -/
theorem claim_C5_hicolor_unreachable :
    find_icon fsC5 THEME_CACHE "C" "X" 16 1 10 = .ok (some "", 2) ∧
    (Theme.from_theme_name fsC5 THEME_CACHE "hicolor" 10).map
        (fun x => find_icon_helper fsC5 "X" 16 1 x.1) =
      .ok (.ok (some "/usr/share/icons/hicolor/16x16/X.png")) :=
  ⟨rfl, rfl⟩

/-- Claim C6 is falsified by the code: when no candidate file exists,
`find_icon` returns the empty string `""` — not an explicit not-found
result (Python `None`, embedded as `Option.none`), not an absolute path
(it does not start with `/`), and not the name of an existing file. -/
theorem claim_C6_returns_empty_string :
    find_icon fsC5 THEME_CACHE "C" "Y" 16 1 10 = .ok (some "", 2) ∧
    pyStartsWith "" '/' = false ∧
    fsC5.pathExists "" = false :=
  ⟨rfl, rfl, rfl⟩

/-- Claim C9 holds: parsing theme `T`'s index file (`Inherits=a,b`,
`Directories=16x16,32x32`) yields exactly the parents constructed from
`a` and `b` in that order and exactly two subdirectory records populated
from their own sections' `Type`, `Size`, `MinSize`, `MaxSize` and
`Scale` keys, with `scale` defaulting to `1` for `16x16`, which has no
`Scale` key. -/
theorem claim_C9_parse_example :
    Theme.init fsC9 THEME_CACHE 5 (some "/usr/share/icons/T") =
      .ok (Theme.mk "/usr/share/icons/T" "/usr/share/icons/T/index.theme"
        (some [Theme.mk "/usr/share/icons/a" "/usr/share/icons/a/index.theme" none none,
               Theme.mk "/usr/share/icons/b" "/usr/share/icons/b/index.theme" none none])
        (some [⟨"16x16", "/usr/share/icons/T", some SubdirType.Fixed, some 16, none, none, 1⟩,
               ⟨"32x32", "/usr/share/icons/T", some SubdirType.Scalable, some 32, some 16, some 64, 2⟩]),
        5) :=
  rfl

/-- Claim C10 holds: a theme whose `[Icon Theme]` section has no
`Directories` key is constructed with `directories` still `None`, and a
later `lookup_icon` against it raises `TypeError` (iterating `None`)
instead of returning an absent result. -/
theorem claim_C10_missing_directories_errors :
    Theme.init fsC10 THEME_CACHE 5 (some "/usr/share/icons/N") =
      .ok (Theme.mk "/usr/share/icons/N" "/usr/share/icons/N/index.theme" none none, 1) ∧
    lookup_icon fsC10 "X" 16 1
        (Theme.mk "/usr/share/icons/N" "/usr/share/icons/N/index.theme" none none) =
      .error .typeError :=
  ⟨rfl, rfl⟩

/-- In the cyclic installation `fsCyc`, the eager parent construction of
`Theme.__init__` never completes: at every recursion budget, building
either theme exhausts the budget (the Python script overflows the call
stack).  The script never fills `THEME_CACHE`, so the cache cannot break
the cycle. -/
theorem cyc_init_diverges : ∀ n,
    Theme.init fsCyc THEME_CACHE n (some "/usr/share/icons/A") =
      .error .recursionError ∧
    Theme.init fsCyc THEME_CACHE n (some "/usr/share/icons/B") =
      .error .recursionError := by
  intro n
  induction n with
  | zero => exact ⟨rfl, rfl⟩
  | succ n ih =>
    have hrA : FS.readFile fsCyc "/usr/share/icons/A/index.theme" =
        some ["[Icon Theme]", "Inherits=B"] := rfl
    have hrB : FS.readFile fsCyc "/usr/share/icons/B/index.theme" =
        some ["[Icon Theme]", "Inherits=A"] := rfl
    have hgA : Theme.get_theme_directory fsCyc "A" = some "/usr/share/icons/A" := rfl
    have hgB : Theme.get_theme_directory fsCyc "B" = some "/usr/share/icons/B" := rfl
    have hcA : List.lookup (strOfPyPath (some "/usr/share/icons/A")) THEME_CACHE =
        none := rfl
    have hcB : List.lookup (strOfPyPath (some "/usr/share/icons/B")) THEME_CACHE =
        none := rfl
    have s1 : pyStrip "[Icon Theme]" = "[Icon Theme]" := rfl
    have s2 : pyStartsWith "[Icon Theme]" '[' = true := rfl
    have s3 : pySplit "[Icon Theme]" '=' = ["[Icon Theme]"] := rfl
    have s4 : pyStrip "Inherits=B" = "Inherits=B" := rfl
    have s5 : pyStartsWith "Inherits=B" '[' = false := rfl
    have s6 : pySplit "Inherits=B" '=' = ["Inherits", "B"] := rfl
    have s7 : pySplit "B" ',' = ["B"] := rfl
    have s8 : pyStrip "Inherits=A" = "Inherits=A" := rfl
    have s9 : pyStartsWith "Inherits=A" '[' = false := rfl
    have s10 : pySplit "Inherits=A" '=' = ["Inherits", "A"] := rfl
    have s11 : pySplit "A" ',' = ["A"] := rfl
    refine ⟨?_, ?_⟩
    · simp [Theme.init, themeInitLoop, constructParentsAux, hrA, hgB, hcB,
            s1, s2, s3, s4, s5, s6, s7, ih.2]
    · simp [Theme.init, themeInitLoop, constructParentsAux, hrB, hgA, hcA,
            s1, s2, s3, s8, s9, s10, s11, ih.1]

/-- Claim C3 is falsified by the code: in an installation whose
`Inherits` declarations form a cycle (`A` inherits `B`, `B` inherits
`A`), `find_icon` does not terminate with a match or an absent result —
there is no visited-set guard, and for every recursion budget the call
dies with `RecursionError` (unbounded recursion while constructing the
themes). -/
theorem claim_C3_cycle_diverges : ∀ n,
    find_icon fsCyc THEME_CACHE "A" "X" 16 1 n = .error .recursionError := by
  intro n
  have h := (cyc_init_diverges n).1
  have hgA : Theme.get_theme_directory fsCyc "A" = some "/usr/share/icons/A" := rfl
  have hcA : List.lookup (strOfPyPath (some "/usr/share/icons/A")) THEME_CACHE =
      none := rfl
  simp [find_icon, Theme.check_cache_before_creation, hgA, hcA, h]

/-- On a well-formed subdirectory, `directory_size_distance` never
raises: it returns exactly `distVal`. -/
theorem directory_size_distance_ok (sub : ThemeSubdirectory) (isize iscale : Int)
    (h : WfSub sub) :
    directory_size_distance sub isize iscale = .ok (distVal sub isize iscale) := by
  obtain ⟨hf, hs⟩ := h
  cases htype : sub.type with
  | none => simp [directory_size_distance, distVal, htype]
  | some ty =>
    cases ty with
    | Fixed =>
      cases hsz : sub.size with
      | none => exact absurd hsz (hf htype)
      | some s => simp [directory_size_distance, distVal, htype, hsz]
    | Scalable =>
      obtain ⟨hmn, hmx⟩ := hs htype
      cases hmn2 : sub.min_size with
      | none => exact absurd hmn2 hmn
      | some mn =>
        cases hmx2 : sub.max_size with
        | none => exact absurd hmx2 hmx
        | some mx =>
          simp only [directory_size_distance, distVal, htype, hmn2, hmx2]
          split_ifs <;> simp_all

/-- `closestFold` distributes over list append. -/
theorem closestFold_append (fs : FS) (icon : String) (s sc : Int)
    (l1 l2 : List (ThemeSubdirectory × String)) (m : Int) (best : String) :
    closestFold fs icon s sc (l1 ++ l2) m best =
      match closestFold fs icon s sc l1 m best with
      | .error e => .error e
      | .ok (m2, b2) => closestFold fs icon s sc l2 m2 b2 := by
  induction l1 generalizing m best with
  | nil => simp [closestFold]
  | cons c rest ih =>
    obtain ⟨sub, ext⟩ := c
    by_cases hex : fs.pathExists (candFile sub icon ext) = true
    · cases hd : directory_size_distance sub s sc with
      | error e => simp [closestFold, hex, hd]
      | ok d =>
        by_cases hlt : d < m
        · simp [closestFold, hex, hd, hlt, ih]
        · simp [closestFold, hex, hd, hlt, ih]
    · simp only [Bool.not_eq_true] at hex
      simp [closestFold, hex, ih]

/-- The extension loop of the closest-match pass is `closestFold` over
this subdirectory's candidates. -/
theorem lookupClosestExts_eq (fs : FS) (icon : String) (s sc : Int)
    (sub : ThemeSubdirectory) (exts : List String) (m : Int) (best : String) :
    lookupClosestExts fs icon s sc sub exts m best =
      closestFold fs icon s sc (exts.map (fun e => (sub, e))) m best := by
  induction exts generalizing m best with
  | nil => simp [lookupClosestExts, closestFold]
  | cons e rest ih =>
    by_cases hex : fs.pathExists (candFile sub icon e) = true
    · cases hd : directory_size_distance sub s sc with
      | error e2 => simp [lookupClosestExts, closestFold, hex, hd]
      | ok d =>
        by_cases hlt : d < m
        · simp [lookupClosestExts, closestFold, hex, hd, hlt, ih]
        · simp [lookupClosestExts, closestFold, hex, hd, hlt, ih]
    · simp only [Bool.not_eq_true] at hex
      simp [lookupClosestExts, closestFold, hex, ih]

/-- The nested loops of the closest-match pass equal `closestFold` over
the flattened candidate list. -/
theorem lookupClosest_eq_closestFold (fs : FS) (icon : String) (s sc : Int)
    (subs : List ThemeSubdirectory) (m : Int) (best : String) :
    lookupClosest fs icon s sc subs m best =
      closestFold fs icon s sc (candList subs) m best := by
  induction subs generalizing m best with
  | nil => simp [lookupClosest, candList, closestFold]
  | cons sub rest ih =>
    have hc : candList (sub :: rest) =
        (extList.map (fun e => (sub, e))) ++ candList rest := by
      simp [candList]
    rw [hc, closestFold_append]
    simp only [lookupClosest, lookupClosestExts_eq]
    cases closestFold fs icon s sc (extList.map (fun e => (sub, e))) m best with
    | error e => rfl
    | ok p => exact ih p.1 p.2

/-- The running minimum never exceeds its seed. -/
theorem minFrom_le (ds : List Int) (m : Int) : minFrom m ds ≤ m := by
  induction ds generalizing m with
  | nil => exact le_refl m
  | cons d rest ih => exact le_trans (ih (min m d)) (min_le_left m d)

/-- When the running minimum improves on its seed, it is attained by a
list element. -/
theorem minFrom_mem (ds : List Int) (m : Int) (h : minFrom m ds < m) :
    minFrom m ds ∈ ds := by
  induction ds generalizing m with
  | nil => exact absurd h (lt_irrefl m)
  | cons d rest ih =>
    simp only [minFrom] at h ⊢
    by_cases h2 : minFrom (min m d) rest < min m d
    · exact List.mem_cons_of_mem d (ih (min m d) h2)
    · have heq : minFrom (min m d) rest = min m d :=
        le_antisymm (minFrom_le rest (min m d)) (not_lt.mp h2)
      have hdm : min m d = d := by
        rcases min_cases m d with ⟨h3, _⟩ | ⟨h3, _⟩
        · rw [heq, h3] at h
          exact absurd h (lt_irrefl m)
        · exact h3
      rw [heq, hdm]
      exact List.mem_cons_self d rest

/-- Characterization of the closest-match fold: under well-formedness it
never raises, its running minimum ends at the minimum distance over the
existing candidates (seeded with `m`), and the selected path is the
first existing candidate attaining that minimum when it strictly
improves on the seed, else the incoming `best`. -/
theorem closestFold_spec (fs : FS) (icon : String) (s sc : Int) :
    ∀ (cs : List (ThemeSubdirectory × String)) (m : Int) (best : String),
    (∀ c ∈ cs, WfSub c.1) →
    closestFold fs icon s sc cs m best =
      .ok (minFrom m ((candExisting fs icon cs).map (fun c => distVal c.1 s sc)),
        if minFrom m ((candExisting fs icon cs).map (fun c => distVal c.1 s sc)) < m then
          match (candExisting fs icon cs).find?
              (fun c => distVal c.1 s sc ==
                minFrom m ((candExisting fs icon cs).map (fun c => distVal c.1 s sc))) with
          | some c => candFile c.1 icon c.2
          | none => best
        else best) := by
  intro cs
  induction cs with
  | nil =>
    intro m best _
    simp [closestFold, candExisting, minFrom]
  | cons c rest ih =>
    intro m best hwf
    obtain ⟨sub, ext⟩ := c
    have hwfc : WfSub sub := hwf (sub, ext) (List.mem_cons_self _ _)
    have hwfr : ∀ c ∈ rest, WfSub c.1 := fun c hc => hwf c (List.mem_cons_of_mem _ hc)
    by_cases hex : fs.pathExists (candFile sub icon ext) = true
    · have hd := directory_size_distance_ok sub s sc hwfc
      have hce : candExisting fs icon ((sub, ext) :: rest) =
          (sub, ext) :: candExisting fs icon rest := by
        simp [candExisting, hex]
      rw [hce]
      simp only [closestFold, hex, hd, if_true, List.map_cons, minFrom]
      by_cases hlt : distVal sub s sc < m
      · rw [if_pos hlt, ih (distVal sub s sc) (candFile sub icon ext) hwfr,
          min_eq_right (le_of_lt hlt)]
        have hM := minFrom_le
          ((candExisting fs icon rest).map (fun c => distVal c.1 s sc)) (distVal sub s sc)
        have hMm : minFrom (distVal sub s sc)
            ((candExisting fs icon rest).map (fun c => distVal c.1 s sc)) < m :=
          lt_of_le_of_lt hM hlt
        rw [if_pos hMm]
        rcases lt_or_eq_of_le hM with hMlt | hMeq
        · have hne : (distVal sub s sc ==
              minFrom (distVal sub s sc)
                ((candExisting fs icon rest).map (fun c => distVal c.1 s sc))) = false := by
            simp only [beq_eq_false_iff_ne, ne_eq]
            intro h2
            linarith
          rw [if_pos hMlt]
          simp only [List.find?, hne]
          have hmem := minFrom_mem
            ((candExisting fs icon rest).map (fun c => distVal c.1 s sc))
            (distVal sub s sc) hMlt
          rcases List.mem_map.mp hmem with ⟨cw, hcw, hcwv⟩
          cases hf : (candExisting fs icon rest).find?
              (fun c => distVal c.1 s sc ==
                minFrom (distVal sub s sc)
                  ((candExisting fs icon rest).map (fun c => distVal c.1 s sc))) with
          | none =>
            have := List.find?_eq_none.mp hf cw hcw
            simp only [beq_iff_eq] at this
            exact absurd hcwv this
          | some cfound => rfl
        · have hbeq : (distVal sub s sc ==
              minFrom (distVal sub s sc)
                ((candExisting fs icon rest).map (fun c => distVal c.1 s sc))) = true := by
            simp only [beq_iff_eq]
            exact hMeq.symm
          rw [if_neg (by rw [hMeq]; exact lt_irrefl _)]
          simp only [List.find?, hbeq]
      · rw [if_neg hlt, ih m best hwfr, min_eq_left (not_lt.mp hlt)]
        by_cases hMm : minFrom m
            ((candExisting fs icon rest).map (fun c => distVal c.1 s sc)) < m
        · have hne : (distVal sub s sc ==
              minFrom m ((candExisting fs icon rest).map (fun c => distVal c.1 s sc))) =
              false := by
            simp only [beq_eq_false_iff_ne, ne_eq]
            intro h2
            exact absurd (h2 ▸ hMm) (not_lt.mpr (not_lt.mp hlt))
          rw [if_pos hMm, if_pos hMm]
          simp only [List.find?, hne]
        · rw [if_neg hMm, if_neg hMm]
    · simp only [Bool.not_eq_true] at hex
      have hce : candExisting fs icon ((sub, ext) :: rest) = candExisting fs icon rest := by
        simp [candExisting, hex]
      rw [hce]
      simp only [closestFold, hex]
      simp only [Bool.false_eq_true, if_false]
      exact ih m best hwfr

/-- When the exact pass finds nothing, `lookup_icon` returns (wrapped in
`some`, never Python `None`) the path described by `closestSpec`: the
first existing candidate of globally minimal distance when that minimum
beats the `sys.maxsize` seed, else the empty string. -/
theorem lookup_icon_closest (fs : FS) (icon : String) (s sc : Int)
    (p i : String) (ps : Option (List Theme)) (subs : List ThemeSubdirectory)
    (hwf : ∀ sub ∈ subs, WfSub sub)
    (hne : lookupExact fs icon s sc subs = .ok none) :
    lookup_icon fs icon s sc (Theme.mk p i ps (some subs)) =
      .ok (some (closestSpec fs icon s sc subs)) := by
  have hwf2 : ∀ c ∈ candList subs, WfSub c.1 := by
    intro c hc
    simp only [candList, List.mem_flatten, List.mem_map] at hc
    obtain ⟨l, ⟨sub, hsub, rfl⟩, hcl⟩ := hc
    obtain ⟨e, _, rfl⟩ := List.mem_map.mp hcl
    exact hwf sub hsub
  simp only [lookup_icon, Theme.directories, hne]
  rw [lookupClosest_eq_closestFold,
    closestFold_spec fs icon s sc (candList subs) sysMaxsize "" hwf2]
  simp only [closestSpec]

/-- Claim C8, amended.  First part, the claim's distance formulas, which
hold as stated: with `dim = size * scale` a `Fixed` subdirectory is at
distance `abs(size*scale - dim)`, a `Scalable` one at the gap to the
nearer bound of `[min*scale, max*scale]` (0 inside), and an unknown type
at `sys.maxsize`.  Second part, the amended selection rule: when the
exact pass fails, `lookup_icon` returns the first existing candidate
file of globally minimal distance provided that minimum is strictly
below `sys.maxsize`; a candidate at distance `sys.maxsize` (unknown
type) is never selected even when nothing else qualifies — with no
qualifying candidate the pass leaves the empty string (see
`claim_C8_counterexample` for where the original claim fails). -/
theorem claim_C8_distance_and_selection :
    (∀ (sub : ThemeSubdirectory) (isize iscale : Int),
      (sub.type = some SubdirType.Fixed → ∀ s, sub.size = some s →
        directory_size_distance sub isize iscale =
          .ok (abs (s * sub.scale - isize * iscale))) ∧
      (sub.type = some SubdirType.Scalable → ∀ mn mx,
        sub.min_size = some mn → sub.max_size = some mx →
        directory_size_distance sub isize iscale =
          .ok (if isize * iscale < mn * sub.scale then
                 mn * sub.scale - isize * iscale
               else if isize * iscale > mx * sub.scale then
                 isize * iscale - mx * sub.scale
               else 0)) ∧
      (sub.type = none →
        directory_size_distance sub isize iscale = .ok sysMaxsize)) ∧
    (∀ (fs : FS) (icon : String) (isize iscale : Int) (p i : String)
        (ps : Option (List Theme)) (subs : List ThemeSubdirectory),
      (∀ sub ∈ subs, WfSub sub) →
      lookupExact fs icon isize iscale subs = .ok none →
      lookup_icon fs icon isize iscale (Theme.mk p i ps (some subs)) =
        .ok (some (closestSpec fs icon isize iscale subs))) := by
  constructor
  · intro sub isize iscale
    refine ⟨?_, ?_, ?_⟩
    · intro ht s hsz
      simp [directory_size_distance, ht, hsz]
    · intro ht mn mx hmn hmx
      simp only [directory_size_distance, ht, hmn, hmx]
      split_ifs <;> simp_all
    · intro ht
      simp [directory_size_distance, ht]
  · intro fs icon isize iscale p i ps subs hwf hne
    exact lookup_icon_closest fs icon isize iscale p i ps subs hwf hne

/-- Claim C8 as stated is false at this input: the only existing
candidate file sits in an unknown-type subdirectory (distance
`sys.maxsize`), there is no exact match, yet `lookup_icon` does not
return that (globally minimal-distance) existing file — it returns the
empty string, because a distance of `sys.maxsize` never beats the
`sys.maxsize`-seeded running minimum. -/
theorem claim_C8_counterexample :
    fs8.pathExists (candFile subU "X" "png") = true ∧
    directory_size_distance subU 64 1 = .ok sysMaxsize ∧
    lookupExact fs8 "X" 64 1 [subU] = .ok none ∧
    lookup_icon fs8 "X" 64 1 themeU = .ok (some "") ∧
    "" ≠ candFile subU "X" "png" :=
  ⟨rfl, rfl, rfl, rfl, by decide⟩

/-- Witness for the amended claim C8 at the claim's own example: two
`Fixed` subdirectories sized 48 and 96 at scale 1, requested size 64 —
distances 16 and 32, no exact match, and the 48px file wins. -/
theorem claim_C8_witness :
    directory_size_distance sub48 64 1 = .ok 16 ∧
    directory_size_distance sub96 64 1 = .ok 32 ∧
    lookup_icon fsF "X" 64 1 themeF = .ok (some "/usr/share/icons/F/48/X.png") := by
  refine ⟨?_, ?_, ?_⟩
  · exact ((claim_C8_distance_and_selection.1 sub48 64 1).1 rfl 48 rfl).trans rfl
  · exact ((claim_C8_distance_and_selection.1 sub96 64 1).1 rfl 96 rfl).trans rfl
  · exact (claim_C8_distance_and_selection.2 fsF "X" 64 1 "/usr/share/icons/F"
      "/usr/share/icons/F/index.theme" none [sub48, sub96] (by decide) rfl).trans rfl

/-- Claim C7 holds: `directory_matches_size` is false whenever the
subdirectory's scale differs from the requested scale; at equal scale a
`Fixed` subdirectory (with its `Size` key) matches exactly iff its size
equals the requested size, and a `Scalable` subdirectory (with its
`MinSize`/`MaxSize` keys) matches exactly iff the requested size lies in
`[min_size, max_size]`. -/
theorem claim_C7_matches_exactly (sub : ThemeSubdirectory) (isize iscale : Int) :
    (sub.scale ≠ iscale → directory_matches_size sub isize iscale = .ok false) ∧
    (sub.scale = iscale → ∀ s, sub.type = some SubdirType.Fixed → sub.size = some s →
      (directory_matches_size sub isize iscale = .ok true ↔ s = isize)) ∧
    (sub.scale = iscale → ∀ mn mx, sub.type = some SubdirType.Scalable →
      sub.min_size = some mn → sub.max_size = some mx →
      (directory_matches_size sub isize iscale = .ok true ↔
        mn ≤ isize ∧ isize ≤ mx)) := by
  refine ⟨?_, ?_, ?_⟩
  · intro h
    have hb : (sub.scale != iscale) = true := bne_iff_ne.mpr h
    simp [directory_matches_size, hb]
  · intro he s ht hs
    simp [directory_matches_size, he, ht, hs]
  · intro he mn mx ht hmn hmx
    simp only [directory_matches_size, he, ht, hmn, hmx, bne_self_eq_false,
      Bool.false_eq_true, if_false]
    by_cases h : mn ≤ isize
    · simp [h]
    · simp [h]

/-- Witness for claim C7 at the claim's own example: the Scalable
16–48 subdirectory at scale 1 matches requested size 32 exactly, and a
subdirectory of scale 1 does not match a request at scale 2. -/
theorem claim_C7_witness :
    directory_matches_size ⟨"sc", "/usr/share/icons/W", some SubdirType.Scalable,
        none, some 16, some 48, 1⟩ 32 1 = .ok true ∧
    directory_matches_size ⟨"f48", "/usr/share/icons/W", some SubdirType.Fixed,
        some 48, none, none, 1⟩ 48 2 = .ok false := by
  constructor
  · exact ((claim_C7_matches_exactly ⟨"sc", "/usr/share/icons/W",
      some SubdirType.Scalable, none, some 16, some 48, 1⟩ 32 1).2.2
      rfl 16 48 rfl rfl rfl).mpr (by decide)
  · exact (claim_C7_matches_exactly ⟨"f48", "/usr/share/icons/W",
      some SubdirType.Fixed, some 48, none, none, 1⟩ 48 2).1 (by decide)
